import Mathlib

/-!
Verification of the WS2P connectivity module of duniter
(src/app/modules/ws2p/index.ts) against its natural-language
specification.

The TypeScript module is shallowly embedded: JavaScript optional values
are modelled as Option types, JavaScript truthiness of strings, numbers
and booleans as explicit Boolean tests, and the stateful WS2PAPI class
as a state record with pure transition functions.  External collaborators
whose code is not part of the analysed sources (WS2PCluster, WS2PUpnp,
the WS2P endpoint regular expression) are modelled from the spec, with
a doc comment saying so.
-/

namespace Duniter.WS2P

/-- Truthiness of a JavaScript optional string: undefined and the empty
string are falsy. -/
def truthyStr : Option String → Bool
  | none => false
  | some s => s != ""

/-- Truthiness of a JavaScript optional number: undefined and 0 are
falsy. -/
def truthyNat : Option Nat → Bool
  | none => false
  | some n => n != 0

/-- Truthiness of a JavaScript optional boolean: undefined and false are
falsy. -/
def truthyBool : Option Bool → Bool
  | none => false
  | some b => b

/-- JavaScript String.prototype.slice applied as s.slice(0, n): the first
n code units.  The uuid strings it is applied to are ASCII, so taking
the first n characters of the data is an exact model. -/
def jsSlice (s : String) (n : Nat) : String := ⟨s.data.take n⟩

/-- The ws2p section of the configuration (WS2PConfDTO.ws2p).  Every
field a JavaScript object may leave undefined is an Option. -/
structure WS2PConf where
  uuid : Option String := none
  privateAccess : Option Bool := none
  publicAccess : Option Bool := none
  host : Option String := none
  port : Option Nat := none
  remotehost : Option String := none
  remoteport : Option Nat := none
  upnp : Option Bool := none
  maxPrivate : Option Nat := none
  maxPublic : Option Nat := none
  preferedNodes : Option (List String) := none
  privilegedNodes : Option (List String) := none
deriving DecidableEq

/-- The whole configuration object: its ws2p section plus every other
field, kept abstract in the type parameter so that frame conditions
(nothing else changes) can be stated. -/
structure ConfDTO (ρ : Type) where
  ws2p : Option WS2PConf
  rest : ρ
deriving DecidableEq

/-- The command-line options read by config.onLoading; a field is some
value exactly when the option was passed (the source tests
program.x !== undefined). -/
structure Program where
  ws2pHost : Option String := none
  ws2pPort : Option Nat := none
  ws2pRemotePort : Option Nat := none
  ws2pRemoteHost : Option String := none
  ws2pUpnp : Option Bool := none
  ws2pNoupnp : Option Bool := none
  ws2pMaxPrivate : Option Nat := none
  ws2pMaxPublic : Option Nat := none
  ws2pPrivate : Option Bool := none
  ws2pPublic : Option Bool := none
  ws2pNoPrivate : Option Bool := none
  ws2pNoPublic : Option Bool := none
  ws2pPreferedAdd : Option String := none
  ws2pPreferedRm : Option String := none
  ws2pPrivilegedAdd : Option String := none
  ws2pPrivilegedRm : Option String := none
deriving DecidableEq

/-- Array.prototype.indexOf followed by splice(index, 1): removes the
first occurrence of p, if any. -/
def removeFirst : List String → String → List String
  | [], _ => []
  | x :: xs, p => if x = p then xs else x :: removeFirst xs p

/-- Step of onLoading: conf.ws2p defaulted to a fresh object when absent
(the object literal calls nuuid.v4().slice(0,8) for the uuid). -/
def initWs2p (v4a : String) (o : Option WS2PConf) : WS2PConf :=
  match o with
  | some w => w
  | none => { uuid := some (jsSlice v4a 8), privateAccess := some true,
              publicAccess := some false }

/-- Step of onLoading: conf.ws2p.uuid defaulted when falsy, from a second
nuuid.v4().slice(0,8) call. -/
def fillUuid (v4b : String) (w : WS2PConf) : WS2PConf :=
  { w with uuid := if truthyStr w.uuid then w.uuid else some (jsSlice v4b 8) }

/-- Step of onLoading: privateAccess defaults to true when undefined. -/
def fillPrivateAccess (w : WS2PConf) : WS2PConf :=
  { w with privateAccess := if w.privateAccess = none then some true else w.privateAccess }

/-- Step of onLoading: publicAccess defaults to false when undefined. -/
def fillPublicAccess (w : WS2PConf) : WS2PConf :=
  { w with publicAccess := if w.publicAccess = none then some false else w.publicAccess }

/-- Step of onLoading: the twelve scalar command-line overrides, in
source order. -/
def applyCliScalars (program : Program) (w : WS2PConf) : WS2PConf :=
  let a := if program.ws2pHost.isSome then { w with host := program.ws2pHost } else w
  let b := if program.ws2pPort.isSome then { a with port := program.ws2pPort } else a
  let c := if program.ws2pRemotePort.isSome then
    { b with remoteport := program.ws2pRemotePort } else b
  let d := if program.ws2pRemoteHost.isSome then
    { c with remotehost := program.ws2pRemoteHost } else c
  let e := if program.ws2pUpnp.isSome then { d with upnp := some true } else d
  let f := if program.ws2pNoupnp.isSome then { e with upnp := some false } else e
  let g := if program.ws2pMaxPrivate.isSome then
    { f with maxPrivate := program.ws2pMaxPrivate } else f
  let h := if program.ws2pMaxPublic.isSome then
    { g with maxPublic := program.ws2pMaxPublic } else g
  let i := if program.ws2pPrivate.isSome then { h with privateAccess := some true } else h
  let j := if program.ws2pPublic.isSome then { i with publicAccess := some true } else i
  let k := if program.ws2pNoPrivate.isSome then { j with privateAccess := some false } else j
  if program.ws2pNoPublic.isSome then { k with publicAccess := some false } else k

/-- Step of onLoading: the prefered-node add then remove options. -/
def applyPrefered (program : Program) (w : WS2PConf) : WS2PConf :=
  let a := match program.ws2pPreferedAdd with
    | some p => { w with preferedNodes := some ((w.preferedNodes.getD []) ++ [p]) }
    | none => w
  match program.ws2pPreferedRm with
  | some p => { a with preferedNodes := some (removeFirst (a.preferedNodes.getD []) p) }
  | none => a

/-- Step of onLoading: the privileged-node add then remove options. -/
def applyPrivileged (program : Program) (w : WS2PConf) : WS2PConf :=
  let a := match program.ws2pPrivilegedAdd with
    | some p => { w with privilegedNodes := some ((w.privilegedNodes.getD []) ++ [p]) }
    | none => w
  match program.ws2pPrivilegedRm with
  | some p => { a with privilegedNodes := some (removeFirst (a.privilegedNodes.getD []) p) }
  | none => a

/-- Step of onLoading: upnp defaults to true when undefined or null. -/
def defaultUpnp (w : WS2PConf) : WS2PConf :=
  if w.upnp = none then { w with upnp := some true } else w

/-- config.onLoading of the module, as the composition of its steps in
source order.  The two parameters v4a and v4b are the strings returned
by the first and second potential call of nuuid.v4(); the source keeps
their first 8 code units (nuuid.v4().slice(0,8)). -/
def onLoading {ρ : Type} (v4a v4b : String) (conf : ConfDTO ρ) (program : Program) :
    ConfDTO ρ :=
  { conf with ws2p := some (defaultUpnp (applyPrivileged program (applyPrefered program
      (applyCliScalars program (fillPublicAccess (fillPrivateAccess
        (fillUuid v4b (initWs2p v4a conf.ws2p)))))))) }

/-- config.beforeSave of the module: deletes the ws2p fields host, port,
remoteport and remotehost whenever they are falsy. -/
def beforeSave {ρ : Type} (conf : ConfDTO ρ) : ConfDTO ρ :=
  match conf.ws2p with
  | none => conf
  | some w =>
    { conf with ws2p := some { w with
        host := if truthyStr w.host then w.host else none,
        port := if truthyNat w.port then w.port else none,
        remoteport := if truthyNat w.remoteport then w.remoteport else none,
        remotehost := if truthyStr w.remotehost then w.remotehost else none } }

/-- Splitting of a character list at every space, the semantics of
String.prototype.split with a single-space separator (empty segments
preserved). -/
def splitSp : List Char → List (List Char)
  | [] => [[]]
  | c :: cs =>
    if c = ' ' then [] :: splitSp cs
    else
      match splitSp cs with
      | [] => [[c]]
      | f :: rest => (c :: f) :: rest

/-- Modelled from the spec: CommonConstants.WS2P_REGEXP lives in
app/lib/common-libs/constants, which is not among the analysed sources.
The spec fixes the advertised endpoint format as the ASCII string
WS2P id host port (tag literal, 8-character instance id, host without
embedded spaces, decimal port).  The model returns the captured
(id, host, port) groups, or none on malformed input. -/
def ws2pMatch (ep : String) : Option (String × String × String) :=
  match splitSp ep.data with
  | [tag, id, host, port] =>
    if tag == "WS2P".data && id.length == 8 && host != [] && port != []
        && port.all Char.isDigit then
      some (⟨id⟩, ⟨host⟩, ⟨port⟩)
    else none
  | _ => none

/-- getWrongEndpoints of the module: keeps the endpoints that match the
WS2P format and whose captured instance id is strictly equal to the
local configured uuid. -/
def getWrongEndpoints {ρ : Type} (endpoints : List String) (ws2pConf : ConfDTO ρ) :
    List String :=
  endpoints.filter fun ep =>
    match ws2pConf.ws2p, ws2pMatch ep with
    | some w, some m => w.uuid == some m.1
    | _, _ => false

/-- Predicate used to state properties of getWrongEndpoints: the endpoint
parses as WS2P and quotes this configuration's instance id. -/
def isSelfEp (w : WS2PConf) (ep : String) : Bool :=
  match ws2pMatch ep with
  | some m => w.uuid == some m.1
  | none => false

/-- Modelled from the spec: the NAT mapping held by the WS2PUpnp helper
(its code, lib/ws2p-upnp, is not among the analysed sources).  The fields
are the ones getCurrentConfig is read for: the externally reachable host
and the mapped port. -/
structure UpnpMapping where
  remotehost : String
  port : Nat
deriving DecidableEq

/-- Modelled from the spec: the WS2PUpnp NAT-traversal helper
(lib/ws2p-upnp is not among the analysed sources).  It owns a renewal
schedule, active after startRegular has run and cancelled by
stopRegular, and the last known good mapping, none while no mapping is
valid. -/
structure WS2PUpnp where
  renewalActive : Bool
  currentConfig : Option UpnpMapping
deriving DecidableEq

/-- Modelled from the spec: WS2PUpnp.stopRegular cancels the renewal
schedule and releases the mapping if one is held; idempotent. -/
def WS2PUpnp.stopRegular (_ : WS2PUpnp) : WS2PUpnp :=
  { renewalActive := false, currentConfig := none }

/-- Modelled from the spec: WS2PUpnp.getCurrentConfig returns the last
known good mapping, or null if none is currently valid. -/
def WS2PUpnp.getCurrentConfig (u : WS2PUpnp) : Option UpnpMapping :=
  u.currentConfig

/-- Modelled from the spec: the observable state of the WS2PCluster
(lib/WS2PCluster is not among the analysed sources): whether the
crawling cycle is scheduled, the bound inbound listener if any, and the
tracked connections, kept abstract. -/
structure WS2PCluster where
  crawling : Bool
  listener : Option (String × Nat)
  connections : List Nat
deriving DecidableEq

/-- Modelled from the spec: WS2PCluster.startCrawling begins the
repeating discovery cycle; idempotent. -/
def WS2PCluster.startCrawling (c : WS2PCluster) : WS2PCluster :=
  { c with crawling := true }

/-- Modelled from the spec: WS2PCluster.stopCrawling cancels the
repeating cycle. -/
def WS2PCluster.stopCrawling (c : WS2PCluster) : WS2PCluster :=
  { c with crawling := false }

/-- Modelled from the spec: WS2PCluster.close stops the inbound listener
(if any) and forcibly closes every tracked connection; idempotent. -/
def WS2PCluster.close (c : WS2PCluster) : WS2PCluster :=
  { c with listener := none, connections := [] }

/-- Modelled from the spec: WS2PCluster.listen binds the inbound
listener on the given host and port (the failure case, BindError, is
decided by the environment in startService below). -/
def WS2PCluster.listen (c : WS2PCluster) (host : String) (port : Nat) : WS2PCluster :=
  { c with listener := some (host, port) }

/-- The state of one WS2PAPI instance: the ws2p section of the
configuration (this.conf and this.server.conf alias the same object in
the source, so one field models both), the cluster, the current NAT
helper, and the helpers discarded by earlier startService invocations
(kept so that the number of live renewal schedules can be observed). -/
structure WS2PAPI where
  ws2p : Option WS2PConf
  cluster : WS2PCluster
  upnpAPI : Option WS2PUpnp
  orphanedUpnp : List WS2PUpnp
deriving DecidableEq

/-- Outcomes of the external calls startService performs, decided by the
environment: whether cluster.listen on the manual host/port throws a
bind error, what upnpAPI.startRegular returns (none models a throw,
otherwise the host, port and available flag), and whether cluster.listen
on the mapped host/port throws. -/
structure Env where
  bindError : Bool
  upnpStart : Option (String × Nat × Bool)
  upnpBindError : Bool
deriving DecidableEq

/-- Observable calls made by startService, in order. -/
inductive Event where
  | listen (host : String) (port : Nat)
  | stopRegularOld
  | startRegularNew
  | generateSelfPeer
  | warn
  | startCrawling
deriving DecidableEq

/-- The condition guarding the manual public-listen branch:
!this.conf.ws2p.upnp && this.conf.ws2p.host && this.conf.ws2p.port. -/
def manualCond (w : WS2PConf) : Bool :=
  !truthyBool w.upnp && truthyStr w.host && truthyNat w.port

/-- The condition guarding the UPnP branch once the manual one was
refused: this.conf.ws2p.upnp !== false. -/
def upnpCond (w : WS2PConf) : Bool :=
  w.upnp != some false

/-- The public-access part of startService (the body of the
if (this.conf.ws2p && this.conf.ws2p.publicAccess) block).  Returns the
state, the trace of calls, and false when an exception escaped. -/
def publicStep (env : Env) (s : WS2PAPI) : WS2PAPI × List Event × Bool :=
  match s.ws2p with
  | none => (s, [], true)
  | some w =>
    if truthyBool w.publicAccess then
      if manualCond w then
        -- MANUAL: await this.cluster.listen(host, port), not guarded by try
        if env.bindError then (s, [], false)
        else ({ s with cluster := s.cluster.listen (w.host.getD "") (w.port.getD 0) },
              [Event.listen (w.host.getD "") (w.port.getD 0)], true)
      else if upnpCond w then
        -- UPnP: stop the previous helper, then construct and start a new one
        let s1 : WS2PAPI × List Event :=
          match s.upnpAPI with
          | some old =>
            ({ s with upnpAPI := none, orphanedUpnp := s.orphanedUpnp ++ [old.stopRegular] },
             [Event.stopRegularOld])
          | none => (s, [])
        match env.upnpStart with
        | none =>
          -- startRegular threw; caught by the try, logger.warn
          ({ s1.1 with upnpAPI := some { renewalActive := false, currentConfig := none } },
           s1.2 ++ [Event.startRegularNew, Event.warn], true)
        | some (uh, up, avail) =>
          if avail then
            let started : WS2PUpnp :=
              { renewalActive := true, currentConfig := some { remotehost := uh, port := up } }
            if env.upnpBindError then
              ({ s1.1 with
                  ws2p := some { w with upnp := some true },
                  upnpAPI := some started },
               s1.2 ++ [Event.startRegularNew, Event.warn], true)
            else
              ({ s1.1 with
                  ws2p := some { w with upnp := some true },
                  upnpAPI := some started,
                  cluster := s1.1.cluster.listen uh up },
               s1.2 ++ [Event.startRegularNew, Event.listen uh up, Event.generateSelfPeer], true)
          else
            ({ s1.1 with upnpAPI := some { renewalActive := true, currentConfig := none } },
             s1.2 ++ [Event.startRegularNew], true)
      else (s, [], true)
    else (s, [], true)

/-- WS2PAPI.startService: the public-access block followed by the
private-access block.  A state, the trace of external calls in order,
and false exactly when an exception escaped (the manual-listen bind
error is the only uncaught one). -/
def startService (env : Env) (s : WS2PAPI) : WS2PAPI × List Event × Bool :=
  let pub := publicStep env s
  if pub.2.2 then
    match pub.1.ws2p with
    | none =>
      ({ pub.1 with cluster := pub.1.cluster.startCrawling },
       pub.2.1 ++ [Event.startCrawling], true)
    | some w =>
      if truthyBool w.privateAccess then
        ({ pub.1 with cluster := pub.1.cluster.startCrawling },
         pub.2.1 ++ [Event.startCrawling], true)
      else (pub.1, pub.2.1, true)
  else (pub.1, pub.2.1, false)

/-- WS2PAPI.stopService: stops crawling, closes the cluster, then stops
the NAT helper renewal when a helper exists. -/
def stopService (s : WS2PAPI) : WS2PAPI :=
  { s with
      cluster := s.cluster.stopCrawling.close,
      upnpAPI := match s.upnpAPI with
        | some u => some u.stopRegular
        | none => none }

/-- WS2PAPI.getEndpoint: when a NAT helper exists (and the configuration
has a ws2p section), advertise its current mapping or nothing; otherwise
advertise the manually configured remote host and port when uuid,
remotehost and remoteport are all truthy; otherwise nothing.
Array.prototype.join turns an undefined element into the empty string
and a number into its decimal representation. -/
def getEndpoint (s : WS2PAPI) : String :=
  match s.upnpAPI, s.ws2p with
  | some u, some w =>
    match u.getCurrentConfig with
    | none => ""
    | some cfg =>
      "WS2P " ++ w.uuid.getD "" ++ " " ++ cfg.remotehost ++ " " ++ toString cfg.port
  | _, _ =>
    match s.ws2p with
    | some w =>
      if truthyStr w.uuid && truthyStr w.remotehost && truthyNat w.remoteport then
        "WS2P " ++ w.uuid.getD "" ++ " " ++ w.remotehost.getD "" ++ " "
          ++ toString (w.remoteport.getD 0)
      else ""
    | none => ""

/-- Number of live NAT renewal schedules across the current helper and
every helper discarded by earlier startService invocations. -/
def activeRenewals (s : WS2PAPI) : Nat :=
  (match s.upnpAPI with
   | some u => if u.renewalActive then 1 else 0
   | none => 0)
  + (s.orphanedUpnp.filter (fun u => u.renewalActive)).length

/-- The condition under which startService takes the manual public
listen path. -/
def manualPathTaken (w : WS2PConf) : Bool :=
  truthyBool w.publicAccess && manualCond w

/-- The condition under which startService takes the UPnP public path. -/
def upnpPathTaken (w : WS2PConf) : Bool :=
  truthyBool w.publicAccess && !manualCond w && upnpCond w

/-- The exact condition under which getEndpoint returns the empty
string, read off the source: while a NAT helper instance exists (and the
configuration has a ws2p section) only its current mapping counts, the
manual remote settings are never consulted; otherwise the manual trio
uuid, remotehost, remoteport must all be truthy. -/
def getEndpointEmpty (s : WS2PAPI) : Bool :=
  match s.upnpAPI, s.ws2p with
  | some u, some _ => u.currentConfig.isNone
  | _, _ =>
    match s.ws2p with
    | some w => !(truthyStr w.uuid && truthyStr w.remotehost && truthyNat w.remoteport)
    | none => true

/-! Concrete configurations, states and environments used by the
counterexamples and witnesses below. -/

/-- A cluster that is neither crawling nor listening. -/
def cl0 : WS2PCluster := { crawling := false, listener := none, connections := [] }

/-- A ws2p section with only an instance id. -/
def wC4 : WS2PConf := { uuid := some "aaaaaaaa" }

/-- A configuration carrying wC4. -/
def confC4 : ConfDTO Unit := { ws2p := some wC4, rest := () }

/-- A ws2p section with instance id and manual remote host and port. -/
def wC2 : WS2PConf :=
  { uuid := some "aaaaaaaa", remotehost := some "remote.example", remoteport := some 20901 }

/-- A façade state whose NAT helper exists but holds no valid mapping,
while the manual remote settings are fully configured. -/
def stC2 : WS2PAPI :=
  { ws2p := some wC2, cluster := cl0,
    upnpAPI := some { renewalActive := true, currentConfig := none },
    orphanedUpnp := [] }

/-- The same configuration with no NAT helper instance. -/
def stC2b : WS2PAPI :=
  { ws2p := some wC2, cluster := cl0, upnpAPI := none, orphanedUpnp := [] }

/-- A public+private configuration listening manually (upnp false, host
and port set). -/
def wC1 : WS2PConf :=
  { uuid := some "aaaaaaaa", publicAccess := some true, privateAccess := some true,
    upnp := some false, host := some "0.0.0.0", port := some 20901 }

/-- A fresh façade state carrying wC1. -/
def stC1 : WS2PAPI :=
  { ws2p := some wC1, cluster := cl0, upnpAPI := none, orphanedUpnp := [] }

/-- An environment in which the manual cluster.listen throws a bind
error. -/
def envBind : Env := { bindError := true, upnpStart := none, upnpBindError := false }

/-- An environment in which every external call succeeds. -/
def envOk : Env :=
  { bindError := false, upnpStart := some ("1.2.3.4", 20901, true), upnpBindError := false }

/-- A contradictory configuration: public access requested, UPnP
disabled, no listen host. -/
def wC3 : WS2PConf :=
  { uuid := some "aaaaaaaa", publicAccess := some true, privateAccess := some false,
    upnp := some false, port := some 20901 }

/-- A fresh façade state carrying wC3. -/
def stC3 : WS2PAPI :=
  { ws2p := some wC3, cluster := cl0, upnpAPI := none, orphanedUpnp := [] }

/-- A public+private configuration using UPnP. -/
def wC5 : WS2PConf :=
  { uuid := some "aaaaaaaa", publicAccess := some true, privateAccess := some true,
    upnp := some true }

/-- A fresh façade state carrying wC5. -/
def stC5 : WS2PAPI :=
  { ws2p := some wC5, cluster := cl0, upnpAPI := none, orphanedUpnp := [] }

/-- An environment whose NAT helper reports available false. -/
def envC5 : Env :=
  { bindError := false, upnpStart := some ("", 0, false), upnpBindError := false }

/-- A NAT helper left over from a previous startService invocation, with
its renewal schedule still active. -/
def upOld : WS2PUpnp := { renewalActive := true, currentConfig := none }

/-- The state carrying wC5 with the left-over helper upOld. -/
def stC10 : WS2PAPI :=
  { ws2p := some wC5, cluster := cl0, upnpAPI := some upOld, orphanedUpnp := [] }

/-- A 36-character uuid-v4 shaped string, standing for a nuuid.v4()
result. -/
def v4ex : String := "aaaaaaaa-bbbb-cccc-dddd-eeeeeeeeeeee"

/-- A ws2p section whose instance id is already present. -/
def wDead : WS2PConf := { uuid := some "deadbeef" }

/-- A configuration carrying wDead. -/
def confDead : ConfDTO Unit := { ws2p := some wDead, rest := () }

/-- A command line passing no ws2p option. -/
def prog0 : Program := {}

/-! Helper lemmas. -/

theorem truthyStr_ne_empty {o : Option String} (h : truthyStr o = true) : o ≠ some "" := by
  cases o with
  | none => simp [truthyStr] at h
  | some s =>
    simp only [truthyStr, bne_iff_ne, ne_eq, decide_eq_true_eq] at h
    intro hc
    cases hc
    simp at h

theorem truthyNat_ne_zero {o : Option Nat} (h : truthyNat o = true) : o ≠ some 0 := by
  cases o with
  | none => simp [truthyNat] at h
  | some n =>
    simp only [truthyNat, bne_iff_ne, ne_eq, decide_eq_true_eq] at h
    intro hc
    cases hc
    simp at h

theorem append_ne_empty_left (x y : String) (hx : x ≠ "") : x ++ y ≠ "" := by
  intro h
  apply hx
  have hd : (x ++ y).data = ("" : String).data := by rw [h]
  rw [String.data_append] at hd
  have hx2 : x.data = [] := (List.append_eq_nil.mp hd).1
  cases x with
  | mk l =>
    simp only [String.data] at hx2
    subst hx2
    rfl

theorem fillPrivateAccess_uuid (w : WS2PConf) : (fillPrivateAccess w).uuid = w.uuid := rfl

theorem fillPublicAccess_uuid (w : WS2PConf) : (fillPublicAccess w).uuid = w.uuid := rfl

theorem applyCliScalars_uuid (p : Program) (w : WS2PConf) :
    (applyCliScalars p w).uuid = w.uuid := by
  simp [applyCliScalars, apply_ite WS2PConf.uuid]

theorem applyPrefered_uuid (p : Program) (w : WS2PConf) :
    (applyPrefered p w).uuid = w.uuid := by
  unfold applyPrefered
  cases p.ws2pPreferedAdd <;> cases p.ws2pPreferedRm <;> rfl

theorem applyPrivileged_uuid (p : Program) (w : WS2PConf) :
    (applyPrivileged p w).uuid = w.uuid := by
  unfold applyPrivileged
  cases p.ws2pPrivilegedAdd <;> cases p.ws2pPrivilegedRm <;> rfl

theorem defaultUpnp_uuid (w : WS2PConf) : (defaultUpnp w).uuid = w.uuid := by
  unfold defaultUpnp
  split <;> rfl

theorem onLoading_uuid_eq {ρ : Type} (v4a v4b : String) (conf : ConfDTO ρ)
    (program : Program) :
    ((onLoading v4a v4b conf program).ws2p).map WS2PConf.uuid
      = some ((fillUuid v4b (initWs2p v4a conf.ws2p)).uuid) := by
  simp [onLoading, defaultUpnp_uuid, applyPrivileged_uuid, applyPrefered_uuid,
    applyCliScalars_uuid, fillPublicAccess_uuid, fillPrivateAccess_uuid]

theorem jsSlice_length (s : String) (n : Nat) : (jsSlice s n).length = min n s.length :=
  List.length_take n s.data

/-! Claim theorems. -/

/-- C1 counterexample: with privateAccess true and a manually configured
public listen address, a bind error in cluster.listen propagates out of
startService and startCrawling is never invoked, contrary to the claim
that the node still runs with private access. -/
theorem startService_manual_bind_error_counterexample :
    truthyBool wC1.privateAccess = true
    ∧ manualPathTaken wC1 = true
    ∧ envBind.bindError = true
    ∧ Event.startCrawling ∉ (startService envBind stC1).2.1
    ∧ (startService envBind stC1).2.2 = false
    ∧ (startService envBind stC1).1.cluster.crawling = false := by
  decide

/-- C1 (amended): with privateAccess truthy, startService invokes
cluster.startCrawling if and only if the public-access attempt does not
take the manual listen path with a bind error; every failure inside the
UPnP path is caught, so crawling still starts there, but a manual-listen
bind error propagates and crawling is not started. -/
theorem startService_private_crawl_iff (env : Env) (s : WS2PAPI) (w : WS2PConf)
    (hw : s.ws2p = some w) (hpriv : truthyBool w.privateAccess = true) :
    Event.startCrawling ∈ (startService env s).2.1
      ↔ ¬(manualPathTaken w = true ∧ env.bindError = true) := by
  obtain ⟨ws, c, u, o⟩ := s
  cases hw
  cases hpub : truthyBool w.publicAccess with
  | false =>
    simp [startService, publicStep, hpub, hpriv, manualPathTaken]
  | true =>
    cases hman : manualCond w with
    | true =>
      cases hbe : env.bindError with
      | true => simp [startService, publicStep, hpub, hman, hbe, hpriv, manualPathTaken]
      | false => simp [startService, publicStep, hpub, hman, hbe, hpriv, manualPathTaken]
    | false =>
      cases hup : upnpCond w with
      | true =>
        cases u with
        | none =>
          cases henv : env.upnpStart with
          | none => simp [startService, publicStep, hpub, hman, hup, henv, hpriv, manualPathTaken]
          | some r =>
            obtain ⟨uh, up, avail⟩ := r
            cases avail <;> cases hub : env.upnpBindError <;>
              simp [startService, publicStep, hpub, hman, hup, henv, hub, hpriv, manualPathTaken]
        | some old =>
          cases henv : env.upnpStart with
          | none => simp [startService, publicStep, hpub, hman, hup, henv, hpriv, manualPathTaken]
          | some r =>
            obtain ⟨uh, up, avail⟩ := r
            cases avail <;> cases hub : env.upnpBindError <;>
              simp [startService, publicStep, hpub, hman, hup, henv, hub, hpriv, manualPathTaken]
      | false =>
        simp [startService, publicStep, hpub, hman, hup, hpriv, manualPathTaken]

/-- C1 witness: on a concrete private+public manual configuration with a
working environment, crawling is started. -/
theorem startService_private_crawl_iff_witness :
    Event.startCrawling ∈ (startService envOk stC1).2.1 :=
  (startService_private_crawl_iff envOk stC1 wC1 rfl (by decide)).mpr (by decide)

/-- C2 counterexample: with uuid, remotehost and remoteport all set, a
NAT helper instance without a valid mapping makes getEndpoint return the
empty string, contrary to the claim that the manual configuration yields
a non-empty advertised string. -/
theorem getEndpoint_shadowed_manual_counterexample :
    stC2.ws2p = some wC2
    ∧ truthyStr wC2.uuid = true
    ∧ truthyStr wC2.remotehost = true
    ∧ truthyNat wC2.remoteport = true
    ∧ getEndpoint stC2 = "" := by
  exact ⟨rfl, by decide, by decide, by decide, rfl⟩

/-- C2 (amended): getEndpoint returns the empty string exactly when,
with a NAT helper instance present (and a ws2p configuration), the
helper holds no valid mapping, or, with no such helper, the manual trio
uuid, remotehost, remoteport is not fully truthy; while a helper exists
the manual settings are never consulted. -/
theorem getEndpoint_empty_iff (s : WS2PAPI) :
    getEndpoint s = "" ↔ getEndpointEmpty s = true := by
  cases s with
  | mk w c u o =>
    cases u with
    | some up =>
      cases w with
      | some wc =>
        cases hc : up.currentConfig with
        | none =>
          simp [getEndpoint, getEndpointEmpty, WS2PUpnp.getCurrentConfig, hc]
        | some cfg =>
          simp only [getEndpoint, getEndpointEmpty, WS2PUpnp.getCurrentConfig, hc,
            Option.isNone_some]
          constructor
          · intro h
            exact absurd h (append_ne_empty_left _ _ (append_ne_empty_left _ _
              (append_ne_empty_left _ _ (append_ne_empty_left _ _
                (append_ne_empty_left _ _ (by decide))))))
          · intro h
            cases h
      | none =>
        simp [getEndpoint, getEndpointEmpty]
    | none =>
      cases w with
      | some wc =>
        by_cases ht :
            (truthyStr wc.uuid && truthyStr wc.remotehost && truthyNat wc.remoteport) = true
        · simp only [getEndpoint, getEndpointEmpty, ht, if_true, Bool.not_true]
          constructor
          · intro h
            exact absurd h (append_ne_empty_left _ _ (append_ne_empty_left _ _
              (append_ne_empty_left _ _ (append_ne_empty_left _ _
                (append_ne_empty_left _ _ (by decide))))))
          · intro h
            cases h
        · simp only [getEndpoint, getEndpointEmpty, ht, if_false, Bool.not_eq_true] at ht ⊢
          simp [ht]
      | none =>
        simp [getEndpoint, getEndpointEmpty]

/-- C3 counterexample: with publicAccess true, upnp false and no host
set, startService raises no error, performs no call and leaves the state
unchanged, contrary to the claim that the contradictory configuration is
surfaced to the operator. -/
theorem startService_silent_misconfig_counterexample :
    truthyBool wC3.publicAccess = true
    ∧ wC3.upnp = some false
    ∧ truthyStr wC3.host = false
    ∧ startService envBind stC3 = (stC3, [], true) := by
  decide

/-- C3 (amended): with publicAccess truthy, upnp explicitly false and
host or port falsy, startService neither raises an error nor logs nor
listens: it silently skips the public-access block and proceeds (only
the private-access crawl may run). -/
theorem startService_misconfig_silent (env : Env) (s : WS2PAPI) (w : WS2PConf)
    (hw : s.ws2p = some w) (hpub : truthyBool w.publicAccess = true)
    (hupnp : w.upnp = some false)
    (hhp : truthyStr w.host = false ∨ truthyNat w.port = false) :
    (startService env s).2.2 = true
    ∧ (∀ a b, Event.listen a b ∉ (startService env s).2.1)
    ∧ Event.warn ∉ (startService env s).2.1
    ∧ (startService env s).1.cluster.listener = s.cluster.listener
    ∧ ((startService env s).2.1 = [] ∨ (startService env s).2.1 = [Event.startCrawling]) := by
  obtain ⟨ws, c, u, o⟩ := s
  cases hw
  have hman : manualCond w = false := by
    rcases hhp with h | h <;> simp [manualCond, hupnp, truthyBool, h]
  have hup : upnpCond w = false := by simp [upnpCond, hupnp]
  cases hpriv : truthyBool w.privateAccess <;>
    simp [startService, publicStep, hpub, hman, hup, hpriv, WS2PCluster.startCrawling]

/-- C3 witness: the amended statement instantiated at the concrete
misconfigured state. -/
theorem startService_misconfig_silent_witness :
    (startService envBind stC3).2.2 = true
    ∧ (∀ a b, Event.listen a b ∉ (startService envBind stC3).2.1)
    ∧ Event.warn ∉ (startService envBind stC3).2.1
    ∧ (startService envBind stC3).1.cluster.listener = stC3.cluster.listener
    ∧ ((startService envBind stC3).2.1 = []
       ∨ (startService envBind stC3).2.1 = [Event.startCrawling]) :=
  startService_misconfig_silent envBind stC3 wC3 rfl (by decide) rfl (Or.inl (by decide))

/-- C4 counterexample: applied to a list holding one foreign endpoint
and one endpoint quoting the local instance id, getWrongEndpoints
returns the self endpoint (the one the claim says is removed), not the
foreign one. -/
theorem getWrongEndpoints_keeps_self_counterexample :
    getWrongEndpoints ["WS2P 11111111 other.host 20901", "WS2P aaaaaaaa my.host 20901"] confC4
      = ["WS2P aaaaaaaa my.host 20901"]
    ∧ getWrongEndpoints ["WS2P 11111111 other.host 20901", "WS2P aaaaaaaa my.host 20901"] confC4
      ≠ ["WS2P 11111111 other.host 20901"] := by
  constructor
  · decide
  · decide

/-- C4 (amended): getWrongEndpoints selects, rather than removes, the
self endpoints: it returns exactly the endpoints whose parsed instance
id equals the local cluster id, and returns the empty list when the
input contains no self endpoint (its caller then removes the returned
endpoints, so the composite drops self endpoints and keeps all others
unchanged). -/
theorem getWrongEndpoints_selects_self {ρ : Type} (endpoints : List String)
    (conf : ConfDTO ρ) (w : WS2PConf) (hw : conf.ws2p = some w) :
    getWrongEndpoints endpoints conf = endpoints.filter (isSelfEp w)
    ∧ ((∀ ep ∈ endpoints, isSelfEp w ep = false) → getWrongEndpoints endpoints conf = []) := by
  have h1 : getWrongEndpoints endpoints conf = endpoints.filter (isSelfEp w) := by
    unfold getWrongEndpoints
    rw [hw]
    apply List.filter_congr
    intro ep _
    unfold isSelfEp
    cases ws2pMatch ep <;> rfl
  refine ⟨h1, fun hall => ?_⟩
  rw [h1, List.filter_eq_nil_iff]
  intro a ha
  rw [hall a ha]
  simp

/-- C4 witness: the amended statement instantiated at the concrete
two-endpoint list. -/
theorem getWrongEndpoints_selects_self_witness :
    getWrongEndpoints ["WS2P 11111111 other.host 20901", "WS2P aaaaaaaa my.host 20901"] confC4
      = ["WS2P 11111111 other.host 20901", "WS2P aaaaaaaa my.host 20901"].filter (isSelfEp wC4)
    ∧ ((∀ ep ∈ ["WS2P 11111111 other.host 20901", "WS2P aaaaaaaa my.host 20901"],
          isSelfEp wC4 ep = false) →
        getWrongEndpoints ["WS2P 11111111 other.host 20901", "WS2P aaaaaaaa my.host 20901"] confC4
          = []) :=
  getWrongEndpoints_selects_self
    ["WS2P 11111111 other.host 20901", "WS2P aaaaaaaa my.host 20901"] confC4 wC4 rfl

/-- C5: with publicAccess true and upnp true, when the NAT helper
reports available false, startService binds no inbound listener,
getEndpoint returns the empty string afterwards, and with privateAccess
also truthy cluster.startCrawling is still invoked. -/
theorem startService_upnp_unavailable (env : Env) (s : WS2PAPI) (w : WS2PConf)
    (uh : String) (up : Nat)
    (hw : s.ws2p = some w) (hpub : truthyBool w.publicAccess = true)
    (hupnp : w.upnp = some true)
    (hres : env.upnpStart = some (uh, up, false)) :
    (∀ a b, Event.listen a b ∉ (startService env s).2.1)
    ∧ (startService env s).1.cluster.listener = s.cluster.listener
    ∧ getEndpoint (startService env s).1 = ""
    ∧ (startService env s).2.2 = true
    ∧ (truthyBool w.privateAccess = true →
        Event.startCrawling ∈ (startService env s).2.1
        ∧ (startService env s).1.cluster.crawling = true) := by
  obtain ⟨ws, c, u, o⟩ := s
  cases hw
  have hman : manualCond w = false := by simp [manualCond, hupnp, truthyBool]
  have hup : upnpCond w = true := by simp [upnpCond, hupnp]
  cases u <;> cases hpriv : truthyBool w.privateAccess <;>
    simp [startService, publicStep, hpub, hman, hup, hres, hpriv,
      WS2PCluster.startCrawling, getEndpoint, WS2PUpnp.getCurrentConfig]

/-- C5 witness: the statement instantiated at the concrete UPnP
configuration with an unavailable mapping. -/
theorem startService_upnp_unavailable_witness :
    (∀ a b, Event.listen a b ∉ (startService envC5 stC5).2.1)
    ∧ (startService envC5 stC5).1.cluster.listener = stC5.cluster.listener
    ∧ getEndpoint (startService envC5 stC5).1 = ""
    ∧ (startService envC5 stC5).2.2 = true
    ∧ (truthyBool wC5.privateAccess = true →
        Event.startCrawling ∈ (startService envC5 stC5).2.1
        ∧ (startService envC5 stC5).1.cluster.crawling = true) :=
  startService_upnp_unavailable envC5 stC5 wC5 "" 0 rfl (by decide) rfl rfl

/-- C6: every non-empty string returned by getEndpoint is exactly the
tag WS2P, the instance id, the host and the decimal port joined by
single spaces, in that order. -/
theorem getEndpoint_format (s : WS2PAPI) (hne : getEndpoint s ≠ "") :
    ∃ w id host p, s.ws2p = some w ∧ id = w.uuid.getD ""
      ∧ getEndpoint s = "WS2P " ++ id ++ " " ++ host ++ " " ++ toString (p : Nat) := by
  cases s with
  | mk w c u o =>
    cases u with
    | some up =>
      cases w with
      | some wc =>
        cases hc : up.currentConfig with
        | none =>
          exact absurd (by simp [getEndpoint, WS2PUpnp.getCurrentConfig, hc]) hne
        | some cfg =>
          refine ⟨wc, wc.uuid.getD "", cfg.remotehost, cfg.port, rfl, rfl, ?_⟩
          simp [getEndpoint, WS2PUpnp.getCurrentConfig, hc]
      | none =>
        exact absurd (by simp [getEndpoint]) hne
    | none =>
      cases w with
      | some wc =>
        by_cases ht :
            (truthyStr wc.uuid && truthyStr wc.remotehost && truthyNat wc.remoteport) = true
        · refine ⟨wc, wc.uuid.getD "", wc.remotehost.getD "", wc.remoteport.getD 0, rfl, rfl, ?_⟩
          simp [getEndpoint, ht]
        · exact absurd (by simp [getEndpoint, ht]) hne
      | none =>
        exact absurd (by simp [getEndpoint]) hne

/-- C6 witness: the format statement instantiated at the manually
configured state with no NAT helper. -/
theorem getEndpoint_format_witness :
    ∃ w id host p, stC2b.ws2p = some w ∧ id = w.uuid.getD ""
      ∧ getEndpoint stC2b = "WS2P " ++ id ++ " " ++ host ++ " " ++ toString (p : Nat) :=
  getEndpoint_format stC2b (by decide)

/-- C7: stopService is idempotent: a second immediate call produces no
error in the model and leaves the observable state identical. -/
theorem stopService_idempotent (s : WS2PAPI) :
    stopService (stopService s) = stopService s := by
  cases s with
  | mk w c u o => cases u <;> rfl

/-- C8: beforeSave removes the ws2p fields host, port, remoteport and
remotehost exactly when falsy, persists none of them as an empty string
or zero, and leaves every other field of the configuration unchanged. -/
theorem beforeSave_omits_falsy_fields {ρ : Type} (conf : ConfDTO ρ) :
    (beforeSave conf).rest = conf.rest
    ∧ (conf.ws2p = none → beforeSave conf = conf)
    ∧ ∀ w, conf.ws2p = some w →
        ∃ w2, (beforeSave conf).ws2p = some w2
          ∧ w2.host = (if truthyStr w.host then w.host else none)
          ∧ w2.port = (if truthyNat w.port then w.port else none)
          ∧ w2.remoteport = (if truthyNat w.remoteport then w.remoteport else none)
          ∧ w2.remotehost = (if truthyStr w.remotehost then w.remotehost else none)
          ∧ w2.host ≠ some "" ∧ w2.port ≠ some 0
          ∧ w2.remotehost ≠ some "" ∧ w2.remoteport ≠ some 0
          ∧ w2.uuid = w.uuid ∧ w2.privateAccess = w.privateAccess
          ∧ w2.publicAccess = w.publicAccess ∧ w2.upnp = w.upnp
          ∧ w2.maxPrivate = w.maxPrivate ∧ w2.maxPublic = w.maxPublic
          ∧ w2.preferedNodes = w.preferedNodes ∧ w2.privilegedNodes = w.privilegedNodes := by
  refine ⟨?_, ?_, ?_⟩
  · cases hw : conf.ws2p <;> simp [beforeSave, hw]
  · intro hn
    simp [beforeSave, hn]
  · intro w hw
    refine ⟨{ w with
        host := if truthyStr w.host then w.host else none,
        port := if truthyNat w.port then w.port else none,
        remoteport := if truthyNat w.remoteport then w.remoteport else none,
        remotehost := if truthyStr w.remotehost then w.remotehost else none },
      ?_, rfl, rfl, rfl, rfl, ?_, ?_, ?_, ?_, rfl, rfl, rfl, rfl, rfl, rfl, rfl, rfl⟩
    · simp [beforeSave, hw]
    · show (if truthyStr w.host then w.host else none) ≠ some ""
      split
      · next h => exact truthyStr_ne_empty h
      · simp
    · show (if truthyNat w.port then w.port else none) ≠ some 0
      split
      · next h => exact truthyNat_ne_zero h
      · simp
    · show (if truthyStr w.remotehost then w.remotehost else none) ≠ some ""
      split
      · next h => exact truthyStr_ne_empty h
      · simp
    · show (if truthyNat w.remoteport then w.remoteport else none) ≠ some 0
      split
      · next h => exact truthyNat_ne_zero h
      · simp

/-- C9: onLoading keeps an already-present truthy cluster instance id
unchanged on every code path, and generates a fresh 8-character id
(sliced from a 36-character uuid-v4 string) exactly when the id is
absent or falsy. -/
theorem onLoading_uuid_stable {ρ : Type} (v4a v4b : String) (conf : ConfDTO ρ)
    (program : Program) (ha : v4a.length = 36) (hb : v4b.length = 36) :
    (∀ w, conf.ws2p = some w → truthyStr w.uuid = true →
      ((onLoading v4a v4b conf program).ws2p).map WS2PConf.uuid = some w.uuid)
    ∧ (∀ w, conf.ws2p = some w → truthyStr w.uuid = false →
      ((onLoading v4a v4b conf program).ws2p).map WS2PConf.uuid = some (some (jsSlice v4b 8))
      ∧ (jsSlice v4b 8).length = 8)
    ∧ (conf.ws2p = none →
      ((onLoading v4a v4b conf program).ws2p).map WS2PConf.uuid = some (some (jsSlice v4a 8))
      ∧ (jsSlice v4a 8).length = 8) := by
  refine ⟨?_, ?_, ?_⟩
  · intro w hw ht
    rw [onLoading_uuid_eq, hw]
    simp [initWs2p, fillUuid, ht]
  · intro w hw ht
    rw [onLoading_uuid_eq, hw]
    constructor
    · simp [initWs2p, fillUuid, ht]
    · rw [jsSlice_length, hb]
      decide
  · intro hw
    rw [onLoading_uuid_eq, hw]
    have hne : jsSlice v4a 8 ≠ "" := by
      intro hc
      have hlen := congrArg String.length hc
      rw [jsSlice_length, ha] at hlen
      exact absurd hlen (by decide)
    have ht2 : truthyStr (some (jsSlice v4a 8)) = true := by
      simp [truthyStr]
      exact hne
    constructor
    · simp [fillUuid, initWs2p, ht2]
    · rw [jsSlice_length, ha]
      decide

/-- C9 witness: a present id "deadbeef" is kept through onLoading with
concrete 36-character uuid-v4 strings and an empty command line. -/
theorem onLoading_uuid_stable_witness :
    ((onLoading v4ex v4ex confDead prog0).ws2p).map WS2PConf.uuid = some (some "deadbeef") :=
  (onLoading_uuid_stable v4ex v4ex confDead prog0 (by decide) (by decide)).1 wDead rfl
    (by decide)

/-- C10: when startService takes the UPnP path while a NAT helper from a
previous invocation exists, that helper is stopped before the new one is
constructed and started (stopRegularOld precedes startRegularNew in the
trace), every discarded helper ends with its renewal schedule inactive,
and at most one renewal schedule is active afterwards. -/
theorem startService_single_renewal (env : Env) (s : WS2PAPI) (w : WS2PConf)
    (old : WS2PUpnp)
    (hw : s.ws2p = some w) (hpath : upnpPathTaken w = true)
    (hold : s.upnpAPI = some old)
    (horph : ∀ x ∈ s.orphanedUpnp, x.renewalActive = false) :
    (startService env s).2.1.take 2 = [Event.stopRegularOld, Event.startRegularNew]
    ∧ (∀ x ∈ (startService env s).1.orphanedUpnp, x.renewalActive = false)
    ∧ activeRenewals (startService env s).1 ≤ 1 := by
  obtain ⟨ws, c, u, o⟩ := s
  cases hw
  cases hold
  have h1 := hpath
  simp only [upnpPathTaken, Bool.and_eq_true] at h1
  obtain ⟨⟨hpub, hman⟩, hup⟩ := h1
  rw [Bool.not_eq_true'] at hman
  have horph2 : ∀ x ∈ o ++ [old.stopRegular], x.renewalActive = false := by
    intro x hx
    rcases List.mem_append.mp hx with h | h
    · exact horph x h
    · simp only [List.mem_singleton] at h
      subst h
      rfl
  have hfil : (o ++ [old.stopRegular]).filter (fun x => x.renewalActive) = [] := by
    rw [List.filter_eq_nil_iff]
    intro x hx
    simp [horph2 x hx]
  cases henv : env.upnpStart with
  | none =>
    cases hpriv : truthyBool w.privateAccess <;>
      (simp [startService, publicStep, hpub, hman, hup, henv, hpriv, activeRenewals,
         WS2PCluster.startCrawling, hfil]
       intro x hx
       rcases hx with h | h
       · exact horph x h
       · subst h
         rfl)
  | some r =>
    obtain ⟨uh, up, avail⟩ := r
    cases avail <;> cases hub : env.upnpBindError <;>
      cases hpriv : truthyBool w.privateAccess <;>
        (simp [startService, publicStep, hpub, hman, hup, henv, hub, hpriv, activeRenewals,
           WS2PCluster.startCrawling, hfil]
         intro x hx
         rcases hx with h | h
         · exact horph x h
         · subst h
           rfl)

/-- C10 witness: the statement instantiated at the concrete state whose
previous helper still holds an active renewal schedule. -/
theorem startService_single_renewal_witness :
    (startService envOk stC10).2.1.take 2 = [Event.stopRegularOld, Event.startRegularNew]
    ∧ (∀ x ∈ (startService envOk stC10).1.orphanedUpnp, x.renewalActive = false)
    ∧ activeRenewals (startService envOk stC10).1 ≤ 1 :=
  startService_single_renewal envOk stC10 wC5 upOld rfl (by decide) rfl
    (fun x hx => absurd hx (List.not_mem_nil x))

end Duniter.WS2P
